import Mathlib

/-
Verification of the `Tuner` base class of `src/sdk/pynni/nni/tuner.py`
against its natural-language specification.

Modelling conventions (shallow embedding):
- Python exceptions are the inductive `Exn`; a call that can raise returns
  `Except Exn _`.
- A `Tuner` object is the record of its instance attributes.  The class has
  no `__init__`, so the only attribute ever created, `_accept_customized`,
  is modelled as `Option Bool`: `none` means the attribute has never been
  assigned, and reading it then raises `AttributeError` as in Python.
- Methods are functions taking the object and returning the (possibly
  updated) object together with their outcome.  A method of the base class
  that only raises leaves the object untouched.
- The dynamically dispatched `self.generate_parameters` used by the batch
  adapter `generate_multiple_parameters` is a parameter
  `gen : sigma -> Nat -> sigma x Except Exn alpha`, where `sigma` is the
  state of the concrete subclass and `alpha` its parameter-set type.
-/

namespace NNI

/-- Python exception values raised by or around the tuner module:
`nni.NoMoreTrialError`, `NotImplementedError`, `AttributeError`, and a
catch-all for any other exception class a subclass may raise. -/
inductive Exn : Type where
  | noMoreTrialError : Exn
  | notImplementedError : String → Exn
  | attributeError : String → Exn
  | valueError : String → Exn
deriving DecidableEq

/-- Instance-attribute record of a `Tuner` object.  The class body defines
no `__init__` and assigns no attribute at construction; `_accept_customized`
is created only by `accept_customized_trials`, hence the `Option`. -/
structure Tuner : Type where
  _accept_customized : Option Bool
deriving DecidableEq

/-- Constructing `Tuner()` cannot fail: there is no `__init__`, so Python
builds an object with an empty attribute dictionary. -/
def Tuner.construct : Except Exn Tuner :=
  Except.ok { _accept_customized := none }

/-- The freshly constructed object: no `_accept_customized` attribute. -/
def Tuner.init : Tuner :=
  { _accept_customized := none }

/-- `Tuner.generate_parameters`: the base class unconditionally raises
`NotImplementedError`, leaving the object untouched. -/
def Tuner.generate_parameters {α : Type} (t : Tuner) (parameter_id : Nat) :
    Tuner × Except Exn α :=
  (t, Except.error (Exn.notImplementedError "Tuner: generate_parameters not implemented"))

/-- `Tuner.receive_trial_result`: the base class unconditionally raises
`NotImplementedError`, leaving the object untouched. -/
def Tuner.receive_trial_result {α β : Type} (t : Tuner) (parameter_id : Nat)
    (parameters : α) (value : β) : Tuner × Except Exn Unit :=
  (t, Except.error (Exn.notImplementedError "Tuner: receive_trial_result not implemented"))

/-- `Tuner.update_search_space`: the base class unconditionally raises
`NotImplementedError`, leaving the object untouched. -/
def Tuner.update_search_space {γ : Type} (t : Tuner) (search_space : γ) :
    Tuner × Except Exn Unit :=
  (t, Except.error (Exn.notImplementedError "Tuner: update_search_space not implemented"))

/-- `Tuner.accept_customized_trials(accept)`: assigns
`self._accept_customized = accept`. -/
def Tuner.accept_customized_trials (t : Tuner) (accept : Bool) : Tuner :=
  { t with _accept_customized := some accept }

/-- Calling `accept_customized_trials()` with the argument omitted uses the
declared Python default `accept=True`. -/
def Tuner.accept_customized_trials_default (t : Tuner) : Tuner :=
  t.accept_customized_trials true

/-- Reading `self._accept_customized`: Python raises `AttributeError` when
the attribute has never been assigned, and yields its value otherwise. -/
def Tuner.read_accept_customized (t : Tuner) : Except Exn Bool :=
  match t._accept_customized with
  | none => Except.error (Exn.attributeError "_accept_customized")
  | some b => Except.ok b

/-- `Tuner.trial_end`: the body is `pass` — returns normally for every
`parameter_id` and `success` flag and changes nothing. -/
def Tuner.trial_end (t : Tuner) (parameter_id : Nat) (success : Bool) :
    Tuner × Except Exn Unit :=
  (t, Except.ok ())

/-- `Tuner.import_data`: the body is `pass` — returns normally for every
`data` list and changes nothing. -/
def Tuner.import_data {δ : Type} (t : Tuner) (data : List δ) :
    Tuner × Except Exn Unit :=
  (t, Except.ok ())

/-- `Tuner.load_checkpoint`: fetches the path from the external accessor
`get_checkpoint_path` (inherited from `Recoverable`, outside this module,
so modelled as the argument carrying the accessor result) and logs that
loading is ignored.  The returned string is the emitted log line; the
object is untouched and nothing is raised. -/
def Tuner.load_checkpoint (t : Tuner) (get_checkpoint_path : String) :
    Tuner × Except Exn Unit × String :=
  (t, Except.ok (),
    "Load checkpoint ignored by tuner, checkpoint path: " ++ get_checkpoint_path)

/-- `Tuner.save_checkpoint`: fetches the path from the external accessor
`get_checkpoint_path` and logs that saving is ignored.  The returned string
is the emitted log line; the object is untouched and nothing is raised. -/
def Tuner.save_checkpoint (t : Tuner) (get_checkpoint_path : String) :
    Tuner × Except Exn Unit × String :=
  (t, Except.ok (),
    "Save checkpoint ignored by tuner, checkpoint path: " ++ get_checkpoint_path)

/-- The loop of `Tuner.generate_multiple_parameters`, with the Python
accumulator `result` explicit.  `gen` is the dynamically dispatched
`self.generate_parameters` of the concrete subclass, threading its state
`σ`.  Per iteration: on a normal return the value is appended to `result`;
on `nni.NoMoreTrialError` the accumulated `result` is returned; any other
exception propagates. -/
def generate_multiple_parameters_aux {σ α : Type}
    (gen : σ → Nat → σ × Except Exn α) :
    σ → List α → List Nat → σ × Except Exn (List α)
  | s, result, [] => (s, Except.ok result)
  | s, result, parameter_id :: rest =>
    match gen s parameter_id with
    | (s₁, Except.ok res) =>
        generate_multiple_parameters_aux gen s₁ (result ++ [res]) rest
    | (s₁, Except.error Exn.noMoreTrialError) => (s₁, Except.ok result)
    | (s₁, Except.error e) => (s₁, Except.error e)

/-- `Tuner.generate_multiple_parameters(parameter_id_list)`: runs the loop
starting from the empty accumulator. -/
def generate_multiple_parameters {σ α : Type}
    (gen : σ → Nat → σ × Except Exn α) (s : σ) (parameter_id_list : List Nat) :
    σ × Except Exn (List α) :=
  generate_multiple_parameters_aux gen s [] parameter_id_list

/-- `RunsOk gen s ids ps s₂`: starting from subclass state `s`, the
successive single-generation calls for `ids` each return normally,
producing the parameter sets `ps` in the same order and the final state
`s₂`. -/
inductive RunsOk {σ α : Type} (gen : σ → Nat → σ × Except Exn α) :
    σ → List Nat → List α → σ → Prop where
  | nil (s : σ) : RunsOk gen s [] [] s
  | cons {s : σ} {id : Nat} {s₁ : σ} {p : α} {ids : List Nat} {ps : List α}
      {s₂ : σ} (hgen : gen s id = (s₁, Except.ok p))
      (hrest : RunsOk gen s₁ ids ps s₂) :
      RunsOk gen s (id :: ids) (p :: ps) s₂

theorem RunsOk.length_eq {σ α : Type} {gen : σ → Nat → σ × Except Exn α}
    {s : σ} {ids : List Nat} {ps : List α} {s₂ : σ}
    (h : RunsOk gen s ids ps s₂) : ps.length = ids.length := by
  induction h with
  | nil s => rfl
  | cons hgen hrest ih => simpa using ih

theorem aux_append_of_runsOk {σ α : Type} {gen : σ → Nat → σ × Except Exn α}
    {s : σ} {ids₁ : List Nat} {ps : List α} {s₂ : σ}
    (h : RunsOk gen s ids₁ ps s₂) :
    ∀ (acc : List α) (ids₂ : List Nat),
      generate_multiple_parameters_aux gen s acc (ids₁ ++ ids₂) =
        generate_multiple_parameters_aux gen s₂ (acc ++ ps) ids₂ := by
  induction h with
  | nil s => intro acc ids₂; simp
  | cons hgen hrest ih =>
      intro acc ids₂
      rw [List.cons_append]
      simp only [generate_multiple_parameters_aux, hgen]
      rw [ih]
      simp

theorem aux_runsOk_eq {σ α : Type} {gen : σ → Nat → σ × Except Exn α}
    {s : σ} {ids : List Nat} {ps : List α} {s₂ : σ}
    (h : RunsOk gen s ids ps s₂) (acc : List α) :
    generate_multiple_parameters_aux gen s acc ids = (s₂, Except.ok (acc ++ ps)) := by
  have hb := aux_append_of_runsOk h acc []
  simpa [generate_multiple_parameters_aux] using hb

/-- Example subclass for witnesses: state is a counter; the first two calls
return the sets 100 and 101 and advance the counter, then the space is
exhausted. -/
def exGen : Nat → Nat → Nat × Except Exn Nat
  | 0, _ => (1, Except.ok 100)
  | 1, _ => (2, Except.ok 101)
  | s, _ => (s, Except.error Exn.noMoreTrialError)

/-- Example subclass for witnesses: the first call succeeds, every later
call raises an exception that is not `NoMoreTrialError`. -/
def exGenFault : Nat → Nat → Nat × Except Exn Nat
  | 0, _ => (1, Except.ok 100)
  | s, _ => (s, Except.error (Exn.valueError "boom"))

/-- C1: `generate_multiple_parameters` returns the outputs of
`generate_parameters` for the ids in list order, stopping at the first id
whose call raises `NoMoreTrialError`.  First conjunct: if the calls for the
first `j` ids return the sets `ps` in order and the call for the id at
index `j` raises `NoMoreTrialError`, the batch returns exactly `ps`, of
length `j`.  Second conjunct: if every call returns normally, the batch
returns one set per id, in order. -/
theorem generate_multiple_parameters_stops_at_first_noMoreTrial
    {σ α : Type} (gen : σ → Nat → σ × Except Exn α) (s : σ) (ids : List Nat)
    (ps : List α) (s₂ : σ) :
    (∀ j, ∀ hj : j < ids.length,
      RunsOk gen s (ids.take j) ps s₂ →
      (gen s₂ (ids.get ⟨j, hj⟩)).2 = Except.error Exn.noMoreTrialError →
      (generate_multiple_parameters gen s ids).2 = Except.ok ps ∧ ps.length = j) ∧
    (RunsOk gen s ids ps s₂ →
      (generate_multiple_parameters gen s ids).2 = Except.ok ps ∧
      ps.length = ids.length) := by
  constructor
  · intro j hj hok hno
    refine ⟨?_, by simpa [List.length_take, Nat.min_eq_left (Nat.le_of_lt hj)]
      using hok.length_eq⟩
    have hsplit := aux_append_of_runsOk hok ([] : List α) (ids.drop j)
    rw [List.take_append_drop] at hsplit
    rw [generate_multiple_parameters, hsplit, List.drop_eq_getElem_cons hj]
    rcases hg : gen s₂ ids[j] with ⟨s₃, e⟩
    have hgg : gen s₂ (ids.get ⟨j, hj⟩) = (s₃, e) := hg
    rw [hgg] at hno
    simp only at hno
    subst hno
    simp [generate_multiple_parameters_aux, hg]
  · intro hok
    refine ⟨?_, hok.length_eq⟩
    rw [generate_multiple_parameters, aux_runsOk_eq hok []]
    simp

/-- Witness for C1 at a concrete run: three requested ids, the third call
raises `NoMoreTrialError`, so the batch yields exactly the first two sets. -/
theorem generate_multiple_parameters_stops_witness :
    (generate_multiple_parameters exGen 0 [10, 11, 12]).2 =
      Except.ok [100, 101] :=
  ((generate_multiple_parameters_stops_at_first_noMoreTrial exGen 0 [10, 11, 12]
      [100, 101] 2).1 2 (by decide)
    (RunsOk.cons rfl (RunsOk.cons rfl (RunsOk.nil 2))) rfl).1

/-- C2: a single-generation call that raises anything other than
`NoMoreTrialError` propagates out of `generate_multiple_parameters` at
once, abandoning the remaining ids. -/
theorem generate_multiple_parameters_propagates_faults
    {σ α : Type} (gen : σ → Nat → σ × Except Exn α) (s : σ) (ids : List Nat)
    (ps : List α) (s₂ : σ) (j : Nat) (hj : j < ids.length) (e : Exn)
    (hok : RunsOk gen s (ids.take j) ps s₂)
    (hfault : (gen s₂ (ids.get ⟨j, hj⟩)).2 = Except.error e)
    (hne : e ≠ Exn.noMoreTrialError) :
    (generate_multiple_parameters gen s ids).2 = Except.error e := by
  have hsplit := aux_append_of_runsOk hok ([] : List α) (ids.drop j)
  rw [List.take_append_drop] at hsplit
  rw [generate_multiple_parameters, hsplit, List.drop_eq_getElem_cons hj]
  rcases hg : gen s₂ ids[j] with ⟨s₃, e₁⟩
  have hgg : gen s₂ (ids.get ⟨j, hj⟩) = (s₃, e₁) := hg
  rw [hgg] at hfault
  simp only at hfault
  subst hfault
  cases e with
  | noMoreTrialError => exact absurd rfl hne
  | notImplementedError m => simp [generate_multiple_parameters_aux, hg]
  | attributeError m => simp [generate_multiple_parameters_aux, hg]
  | valueError m => simp [generate_multiple_parameters_aux, hg]

/-- Witness for C2 at a concrete run: the second call raises a
non-`NoMoreTrialError` exception, which the batch re-raises. -/
theorem generate_multiple_parameters_propagates_witness :
    (generate_multiple_parameters exGenFault 0 [7, 8, 9]).2 =
      Except.error (Exn.valueError "boom") :=
  generate_multiple_parameters_propagates_faults exGenFault 0 [7, 8, 9]
    [100] 1 1 (by decide) (Exn.valueError "boom")
    (RunsOk.cons rfl (RunsOk.nil 1)) rfl (by decide)

/-- C3 counterexample: the claim says the accept-customized flag is true by
default at construction, but a freshly constructed `Tuner` has no
`_accept_customized` attribute at all — in particular it is not set to
true. -/
theorem accept_customized_not_true_at_construction :
    ¬ Tuner.init._accept_customized = some true := by
  simp [Tuner.init]

/-- C3 (amended): at construction the accept-customized attribute is unset
rather than true; `accept_customized_trials(accept)` sets it to the given
boolean, and the omitted argument defaults to true. -/
theorem accept_customized_trials_sets_flag :
    Tuner.init._accept_customized = none ∧
    (∀ (t : Tuner) (accept : Bool),
      (t.accept_customized_trials accept)._accept_customized = some accept) ∧
    (∀ t : Tuner,
      t.accept_customized_trials_default._accept_customized = some true) :=
  ⟨rfl, fun _ _ => rfl, fun _ => rfl⟩

/-- C4: a tuner that does not override a required operation raises
`NotImplementedError` on the first invocation of that operation itself —
`generate_parameters`, `receive_trial_result` and `update_search_space`
all raise, for every input and every object state — while construction
succeeds. -/
theorem unoverridden_required_operations_raise :
    Tuner.construct = Except.ok Tuner.init ∧
    (∀ (α : Type) (t : Tuner) (pid : Nat),
      (t.generate_parameters pid : Tuner × Except Exn α) =
        (t, Except.error
          (Exn.notImplementedError "Tuner: generate_parameters not implemented"))) ∧
    (∀ (α β : Type) (t : Tuner) (pid : Nat) (params : α) (value : β),
      t.receive_trial_result pid params value =
        (t, Except.error
          (Exn.notImplementedError "Tuner: receive_trial_result not implemented"))) ∧
    (∀ (γ : Type) (t : Tuner) (space : γ),
      t.update_search_space space =
        (t, Except.error
          (Exn.notImplementedError "Tuner: update_search_space not implemented"))) :=
  ⟨rfl, fun _ _ _ => rfl, fun _ _ _ _ _ _ => rfl, fun _ _ _ => rfl⟩

/-- C6: the default checkpoint operations leave every field of the tuner
unchanged and raise nothing, and the path in the log line is exactly the
value obtained from the external `get_checkpoint_path` accessor. -/
theorem checkpoint_operations_are_noops (t : Tuner) (path : String) :
    (t.load_checkpoint path).1 = t ∧
    (t.load_checkpoint path).2.1 = Except.ok () ∧
    (t.load_checkpoint path).2.2 =
      "Load checkpoint ignored by tuner, checkpoint path: " ++ path ∧
    (t.save_checkpoint path).1 = t ∧
    (t.save_checkpoint path).2.1 = Except.ok () ∧
    (t.save_checkpoint path).2.2 =
      "Save checkpoint ignored by tuner, checkpoint path: " ++ path :=
  ⟨rfl, rfl, rfl, rfl, rfl, rfl⟩

/-- C7: the default `trial_end` returns normally for every parameter id
(known to the tuner or not) and every success flag, and leaves the tuner
unchanged. -/
theorem trial_end_default_is_noop (t : Tuner) (parameter_id : Nat)
    (success : Bool) :
    t.trial_end parameter_id success = (t, Except.ok ()) :=
  rfl

/-- C8: the default `import_data` is a no-op for every input list of
historical records, and in particular returns normally on the empty list. -/
theorem import_data_default_is_noop {δ : Type} (t : Tuner) (data : List δ) :
    t.import_data data = (t, Except.ok ()) ∧
    t.import_data ([] : List δ) = (t, Except.ok ()) :=
  ⟨rfl, rfl⟩

/-- C9: on the empty id list, `generate_multiple_parameters` returns the
empty result without consulting `gen` at all — the result holds for every
`gen` and the state is returned untouched, so it holds in particular for
the base class whose `generate_parameters` always raises. -/
theorem generate_multiple_parameters_nil {σ α : Type}
    (gen : σ → Nat → σ × Except Exn α) (s : σ) :
    generate_multiple_parameters gen s [] = (s, Except.ok ([] : List α)) :=
  rfl

/-- C10: before the first call to `accept_customized_trials`, the tuner
holds no accept-customized attribute at all, and reading it raises
`AttributeError` instead of yielding a default value. -/
theorem accept_customized_attribute_absent_until_set :
    Tuner.init._accept_customized = none ∧
    Tuner.init.read_accept_customized =
      Except.error (Exn.attributeError "_accept_customized") :=
  ⟨rfl, rfl⟩

/-- Modelled from the spec: the generation state machine of a concrete
tuner session (spec 4.2).  The source under `src/` contains only the
abstract `Tuner` base class, whose `generate_parameters` must be
overridden, so the `Active`/`Exhausted` states live in concrete subclasses
outside this module. -/
inductive SessionPhase : Type where
  | Active : SessionPhase
  | Exhausted : SessionPhase
deriving DecidableEq

/-- Modelled from the spec: the external events a session observes. -/
inductive SessionEvent : Type where
  | generate : Nat → SessionEvent
  | update_search_space : SessionEvent
  | import_data : SessionEvent
  | receive_trial_result : SessionEvent
  | trial_end : SessionEvent
deriving DecidableEq

/-- Modelled from the spec: one step of the session state machine (spec
4.2 and invariant 2 of spec 3).  `gen_active` is the concrete algorithm's
generation behaviour while `Active` (it may declare exhaustion).  In
`Exhausted`, a generation request fails with `NoMoreTrialError` and the
phase stays `Exhausted`; only a search-space update or fresh imported data
may move the session back to `Active`; the remaining events never change
the phase.  The second component is the outcome a `generate` event
returns. -/
def sessionStep {α : Type} (gen_active : Nat → SessionPhase × Except Exn α) :
    SessionPhase → SessionEvent → SessionPhase × Option (Except Exn α)
  | SessionPhase.Active, SessionEvent.generate pid =>
      ((gen_active pid).1, some (gen_active pid).2)
  | SessionPhase.Exhausted, SessionEvent.generate _ =>
      (SessionPhase.Exhausted, some (Except.error Exn.noMoreTrialError))
  | _, SessionEvent.update_search_space => (SessionPhase.Active, none)
  | _, SessionEvent.import_data => (SessionPhase.Active, none)
  | p, SessionEvent.receive_trial_result => (p, none)
  | p, SessionEvent.trial_end => (p, none)

/-- Modelled from the spec: run a session over a list of events, collecting
the outcomes of the generation requests in order. -/
def runSession {α : Type} (gen_active : Nat → SessionPhase × Except Exn α) :
    SessionPhase → List SessionEvent → SessionPhase × List (Except Exn α)
  | p, [] => (p, [])
  | p, ev :: rest =>
    match sessionStep gen_active p ev with
    | (p₁, some o) =>
        ((runSession gen_active p₁ rest).1, o :: (runSession gen_active p₁ rest).2)
    | (p₁, none) => runSession gen_active p₁ rest

/-- C5: once a session is `Exhausted`, as long as no search-space update
and no data import occurs, every generation request fails with
`NoMoreTrialError` and the session stays `Exhausted` — it never returns to
`Active` spontaneously. -/
theorem exhausted_until_external_change {α : Type}
    (gen_active : Nat → SessionPhase × Except Exn α)
    (evs : List SessionEvent)
    (h : ∀ ev ∈ evs, ev ≠ SessionEvent.update_search_space ∧
      ev ≠ SessionEvent.import_data) :
    (runSession gen_active SessionPhase.Exhausted evs).1 =
      SessionPhase.Exhausted ∧
    ∀ o ∈ (runSession gen_active SessionPhase.Exhausted evs).2,
      o = Except.error Exn.noMoreTrialError := by
  induction evs with
  | nil => exact ⟨rfl, fun o ho => absurd ho (List.not_mem_nil o)⟩
  | cons ev rest ih =>
      have hrest := ih fun e he => h e (List.mem_cons_of_mem ev he)
      have hev := h ev (List.mem_cons_self ev rest)
      cases ev with
      | generate pid =>
          refine ⟨by simpa [runSession, sessionStep] using hrest.1, ?_⟩
          intro o ho
          simp only [runSession, sessionStep] at ho
          rcases List.mem_cons.mp ho with h₁ | h₂
          · exact h₁
          · exact hrest.2 o h₂
      | update_search_space => exact absurd rfl hev.1
      | import_data => exact absurd rfl hev.2
      | receive_trial_result =>
          exact ⟨by simpa [runSession, sessionStep] using hrest.1,
            by simpa [runSession, sessionStep] using hrest.2⟩
      | trial_end =>
          exact ⟨by simpa [runSession, sessionStep] using hrest.1,
            by simpa [runSession, sessionStep] using hrest.2⟩

/-- Example active-phase behaviour for the C5 witness. -/
def exAlg : Nat → SessionPhase × Except Exn Nat :=
  fun _ => (SessionPhase.Active, Except.ok 0)

/-- Witness for C5 at a concrete event trace with two generation requests
and a lifecycle notice, none of which reopens the space. -/
theorem exhausted_until_external_change_witness :
    (runSession exAlg SessionPhase.Exhausted
      [SessionEvent.generate 0, SessionEvent.trial_end,
        SessionEvent.generate 1]).1 = SessionPhase.Exhausted :=
  (exhausted_until_external_change exAlg
    [SessionEvent.generate 0, SessionEvent.trial_end, SessionEvent.generate 1]
    (by decide)).1

end NNI
